import Mathlib

/-!
Verification of the plus-auto.ro intelligence agent
(`your_toqan_agent.py`): a shallow embedding of the data validator,
the price extractor, the insight generator and the weekly-run
orchestrator, together with theorems about the spec claims.

Numeric conventions: Python ints are `Nat`/`Int`; Python float
arithmetic on exact integer inputs (averages, percentages, market
shares, confidence scores) is modelled in `ℚ`.
-/

deriving instance DecidableEq for Except

namespace Agent

/-- A dealer record as built by `extract_dealer_intelligence` /
`get_simulation_data`: name slug and listing count (url/timestamp
fields are irrelevant to every claim and omitted). -/
structure Dealer where
  name : String
  listing_count : Nat
deriving DecidableEq

/-- The raw extraction batch handed to the validator and the insight
generator (`data` dict in the source). -/
structure RawData where
  total_listings : Nat
  price_samples : List Nat
  dealer_data : List Dealer
deriving DecidableEq

/-- Result shape of `validate_marketplace_data`. -/
structure ValidationResult where
  is_valid : Bool
  warnings : List String
  errors : List String
  data_quality_score : Int
deriving DecidableEq

/-- The "no ads" blocking error message (emoji prefix dropped). -/
def noAdsError : String := "No ads found - scraping completely failed"

/-- The final quality-gate error message. -/
def qualityError : String := "Data quality too poor for reliable analysis"

/-- Initial accumulator of `validate_marketplace_data`. -/
def initialValidation : ValidationResult :=
  { is_valid := true, warnings := [], errors := [], data_quality_score := 100 }

/-- Mean of a price sample in ℚ (`sum(price_samples)/len(price_samples)`). -/
def avgPrice (ps : List Nat) : ℚ := (ps.sum : ℚ) / ps.length

/-- Total-listings check of `validate_marketplace_data` (first if/elif
chain): `0` is a blocking error (-50), out-of-band counts are warnings
(-20). -/
def listingsCheck (d : RawData) (r : ValidationResult) : ValidationResult :=
  if d.total_listings = 0 then
    { r with errors := r.errors ++ [noAdsError],
             is_valid := false,
             data_quality_score := r.data_quality_score - 50 }
  else if d.total_listings < 20000 then
    { r with warnings := r.warnings ++ ["Low ad count - possible scraping issue"],
             data_quality_score := r.data_quality_score - 20 }
  else if d.total_listings > 40000 then
    { r with warnings := r.warnings ++ ["Very high ad count - possible scraping error"],
             data_quality_score := r.data_quality_score - 20 }
  else r

/-- Price-sample check of `validate_marketplace_data`: missing samples
(-15), few samples (-10), or (when at least 10 samples) an implausible
mean (-15 either way). -/
def priceCheck (d : RawData) (r : ValidationResult) : ValidationResult :=
  if d.price_samples = [] then
    { r with warnings := r.warnings ++ ["No price samples collected"],
             data_quality_score := r.data_quality_score - 15 }
  else if d.price_samples.length < 10 then
    { r with warnings := r.warnings ++ ["Few price samples - limited data"],
             data_quality_score := r.data_quality_score - 10 }
  else if avgPrice d.price_samples < 1000 then
    { r with warnings := r.warnings ++ ["Suspiciously low average price"],
             data_quality_score := r.data_quality_score - 15 }
  else if avgPrice d.price_samples > 100000 then
    { r with warnings := r.warnings ++ ["Suspiciously high average price"],
             data_quality_score := r.data_quality_score - 15 }
  else r

/-- Dealer-data check of `validate_marketplace_data`: no dealers is a
warning (-10). -/
def dealerCheck (d : RawData) (r : ValidationResult) : ValidationResult :=
  if d.dealer_data = [] then
    { r with warnings := r.warnings ++ ["No dealer data collected"],
             data_quality_score := r.data_quality_score - 10 }
  else r

/-- Final summary step of `validate_marketplace_data`: a score below 50
invalidates the batch and appends the quality error. -/
def finalCheck (r : ValidationResult) : ValidationResult :=
  if r.data_quality_score < 50 then
    { r with is_valid := false, errors := r.errors ++ [qualityError] }
  else r

/-- `validate_marketplace_data`: the four checks applied in source
order to the initial score-100 accumulator. -/
def validate_marketplace_data (d : RawData) : ValidationResult :=
  finalCheck (dealerCheck d (priceCheck d (listingsCheck d initialValidation)))

/-- Deduction contributed by the total-listings check. -/
def listingsDeduction (d : RawData) : Int :=
  if d.total_listings = 0 then 50
  else if d.total_listings < 20000 then 20
  else if d.total_listings > 40000 then 20
  else 0

/-- Deduction contributed by the price-sample check. -/
def priceDeduction (d : RawData) : Int :=
  if d.price_samples = [] then 15
  else if d.price_samples.length < 10 then 10
  else if avgPrice d.price_samples < 1000 then 15
  else if avgPrice d.price_samples > 100000 then 15
  else 0

/-- Deduction contributed by the dealer-data check. -/
def dealerDeduction (d : RawData) : Int :=
  if d.dealer_data = [] then 10 else 0

lemma listingsCheck_score (d : RawData) (r : ValidationResult) :
    (listingsCheck d r).data_quality_score =
      r.data_quality_score - listingsDeduction d := by
  unfold listingsCheck listingsDeduction
  split <;> [simp; skip]
  split <;> [simp; skip]
  split <;> simp

lemma priceCheck_score (d : RawData) (r : ValidationResult) :
    (priceCheck d r).data_quality_score =
      r.data_quality_score - priceDeduction d := by
  unfold priceCheck priceDeduction
  split <;> [simp; skip]
  split <;> [simp; skip]
  split <;> [simp; skip]
  split <;> simp

lemma dealerCheck_score (d : RawData) (r : ValidationResult) :
    (dealerCheck d r).data_quality_score =
      r.data_quality_score - dealerDeduction d := by
  unfold dealerCheck dealerDeduction
  split <;> simp

lemma finalCheck_score (r : ValidationResult) :
    (finalCheck r).data_quality_score = r.data_quality_score := by
  unfold finalCheck
  split <;> simp

lemma listingsDeduction_bounds (d : RawData) :
    0 ≤ listingsDeduction d ∧ listingsDeduction d ≤ 50 := by
  unfold listingsDeduction
  split <;> [omega; skip]
  split <;> [omega; skip]
  split <;> omega

lemma priceDeduction_bounds (d : RawData) :
    0 ≤ priceDeduction d ∧ priceDeduction d ≤ 15 := by
  unfold priceDeduction
  split <;> [omega; skip]
  split <;> [omega; skip]
  split <;> [omega; skip]
  split <;> omega

lemma dealerDeduction_bounds (d : RawData) :
    0 ≤ dealerDeduction d ∧ dealerDeduction d ≤ 10 := by
  unfold dealerDeduction
  split <;> omega

lemma validate_score (d : RawData) :
    (validate_marketplace_data d).data_quality_score =
      100 - listingsDeduction d - priceDeduction d - dealerDeduction d := by
  unfold validate_marketplace_data
  rw [finalCheck_score, dealerCheck_score, priceCheck_score, listingsCheck_score]
  simp [initialValidation]

/-- `get_simulation_data`: the fixed fallback dataset. -/
def get_simulation_data : RawData :=
  { total_listings := 29099,
    price_samples :=
      [20590, 4990, 5290, 22590, 28490, 18490, 28000, 31313, 29992,
       6000, 9950, 46325, 43234, 42868, 40224, 35072, 49451, 70326,
       141840, 147684, 118936, 121745, 88217, 59900, 640588, 232078],
    dealer_data :=
      [⟨"autorulateleasing", 537⟩, ⟨"autodel", 310⟩,
       ⟨"parc-auto-dragoliv-sascut", 248⟩, ⟨"wow-auto-rulate", 194⟩,
       ⟨"radacini-auto-rulate", 187⟩] }

/-- Python `sorted(..., key=listing_count, reverse=True)` orders by
this relation: `a` may precede `b` when `a`'s count is at least `b`'s
(a stable descending sort keeps ties in input order). -/
def dealerGe (a b : Dealer) : Prop := b.listing_count ≤ a.listing_count

instance : DecidableRel dealerGe := fun a b => by
  unfold dealerGe; infer_instance

instance : IsTotal Dealer dealerGe :=
  ⟨fun a b => (Nat.le_total b.listing_count a.listing_count).imp id id⟩

instance : IsTrans Dealer dealerGe :=
  ⟨fun _ _ _ h h2 => Nat.le_trans h2 h⟩

/-- `sorted(dealer_data, key=listing_count, reverse=True)` as a stable
insertion sort. -/
def pySortDesc (ds : List Dealer) : List Dealer :=
  List.insertionSort dealerGe ds

/-- `sorted(prices)`: Python ascending sort of the price sample. -/
def sortAsc (ps : List Nat) : List Nat :=
  List.insertionSort (fun a b => a ≤ b) ps

/-- The price list actually analysed: the raw samples, or the
single-element fallback `[40000]` when none were collected. -/
def pricesOf (raw : RawData) : List Nat :=
  if raw.price_samples = [] then [40000] else raw.price_samples

/-- `sorted(prices)[len(prices) // 2]` (defaulting to 0 on the empty
list, which the generator never produces). -/
def medianOf (ps : List Nat) : Nat :=
  (sortAsc ps).getD (ps.length / 2) 0

/-- `len([p for p in prices if p >= 100000])`. -/
def luxuryCount (ps : List Nat) : Nat :=
  (ps.filter (fun p => 100000 ≤ p)).length

/-- `(luxury_count / len(prices)) * 100`. -/
def luxuryPct (ps : List Nat) : ℚ :=
  ((luxuryCount ps : ℚ) / ps.length) * 100

/-- `len([p for p in prices if 29000 <= p < 40000])`. -/
def midRangeCount (ps : List Nat) : Nat :=
  (ps.filter (fun p => decide (29000 ≤ p ∧ p < 40000))).length

/-- `(mid_range_count / len(prices)) * 100`. -/
def midRangePct (ps : List Nat) : ℚ :=
  ((midRangeCount ps : ℚ) / ps.length) * 100

/-- `(leader.listing_count / total_listings) * 100`: the market-share
figure embedded in the competitive-intelligence insight. -/
def marketShare (leader : Dealer) (total_listings : Nat) : ℚ :=
  ((leader.listing_count : ℚ) / total_listings) * 100

/-- Python `str.title()` over an already hyphen-to-space-replaced
string: uppercase each letter that follows a non-letter, lowercase the
rest. -/
def pyTitleGo : Bool → List Char → List Char
  | _, [] => []
  | prev, c :: cs =>
    (if c.isAlpha then (if prev then c.toLower else c.toUpper) else c)
      :: pyTitleGo c.isAlpha cs

/-- `name.replace('-', ' ')`: single-character replacement is a map
over the characters. -/
def replaceDashes (cs : List Char) : List Char :=
  cs.map (fun c => if c = '-' then ' ' else c)

/-- `name.replace('-', ' ').title()` as used for the leader insight. -/
def pyTitle (s : String) : String :=
  String.mk (pyTitleGo false (replaceDashes s.data))

/-- The five insight categories produced by the rule set, in rule
order. -/
inductive InsightKind
  | market_trend
  | pricing_strategy
  | competitive_intelligence
  | market_opportunity
  | prediction
deriving DecidableEq

/-- Rule-order rank of an insight kind. -/
def kindRank : InsightKind → Nat
  | .market_trend => 0
  | .pricing_strategy => 1
  | .competitive_intelligence => 2
  | .market_opportunity => 3
  | .prediction => 4

/-- An insight record (the `description` f-string is free text and not
load-bearing for any claim; the remaining fields are modelled). -/
structure Insight where
  kind : InsightKind
  title : String
  confidence : ℚ
  impact : String
  recommendation : String
deriving DecidableEq

/-- Rule 1: luxury share above 25% (confidence 0.92, high impact). -/
def marketTrendInsight : Insight :=
  { kind := .market_trend,
    title := "Premium Market Dominance",
    confidence := 92/100,
    impact := "high",
    recommendation :=
      "Focus marketing on high-value customers and premium vehicle acquisition." }

/-- Rule 2: average price above 100000 (confidence 0.89, high impact). -/
def pricingInsight : Insight :=
  { kind := .pricing_strategy,
    title := "High-Value Market Position",
    confidence := 89/100,
    impact := "high",
    recommendation :=
      "Leverage premium positioning in marketing and dealer partnerships." }

/-- Rule 3: market leadership of the top dealer (confidence 0.95,
medium impact). -/
def competitiveInsight (leader : Dealer) : Insight :=
  { kind := .competitive_intelligence,
    title := pyTitle leader.name ++ " Market Leadership",
    confidence := 95/100,
    impact := "medium",
    recommendation :=
      "Monitor competitive responses and consider partnership opportunities." }

/-- Rule 4: mid-range share below 25% (confidence 0.83, medium
impact). -/
def midRangeInsight : Insight :=
  { kind := .market_opportunity,
    title := "Mid-Range Market Gap",
    confidence := 83/100,
    impact := "medium",
    recommendation :=
      "Encourage dealers to expand mid-range inventory for broader market coverage." }

/-- Rule 5: ISO week divisible by 4 (confidence 0.76, low impact). -/
def predictionInsight : Insight :=
  { kind := .prediction,
    title := "Seasonal Market Adjustment Expected",
    confidence := 76/100,
    impact := "low",
    recommendation :=
      "Prepare for seasonal inventory fluctuations and adjust marketing accordingly." }

/-- A conditional rule segment: the singleton insight when the rule
fires, empty otherwise. -/
def ruleSeg (c : Prop) [Decidable c] (i : Insight) : List Insight :=
  if c then [i] else []

/-- `sorted(dealer_data, ..., reverse=True)[:3]`. -/
def topDealers (ds : List Dealer) : List Dealer :=
  (pySortDesc ds).take 3

/-- Rule 3 segment: fires exactly when `top_dealers` is non-empty,
using its first element as the leader. -/
def competitiveSeg (ds : List Dealer) : List Insight :=
  match topDealers ds with
  | [] => []
  | leader :: _ => [competitiveInsight leader]

/-- All candidate insights appended in source evaluation order, before
confidence filtering; `week` is the ISO week number that rule 5 reads
from the clock. -/
def candidateInsights (raw : RawData) (week : Nat) : List Insight :=
  ruleSeg (luxuryPct (pricesOf raw) > 25) marketTrendInsight
    ++ ruleSeg (avgPrice (pricesOf raw) > 100000) pricingInsight
    ++ competitiveSeg raw.dealer_data
    ++ ruleSeg (midRangePct (pricesOf raw) < 25) midRangeInsight
    ++ ruleSeg (week % 4 = 0) predictionInsight

/-- The intelligence-section knobs of `create_your_config`. -/
structure Config where
  insight_confidence_threshold : ℚ
  max_insights_per_report : Nat
deriving DecidableEq

/-- Defaults written by `create_your_config`: threshold 0.80, cap 12. -/
def defaultConfig : Config :=
  { insight_confidence_threshold := 80/100, max_insights_per_report := 12 }

/-- The `pricing` sub-record of the session payload. -/
structure Pricing where
  average : ℚ
  median : Nat
  luxury_percentage : ℚ
  sample_size : Nat
deriving DecidableEq

/-- The `intelligence_summary` sub-record of the session payload. -/
structure Summary where
  insights_generated : Nat
  confidence_average : ℚ
  high_impact_insights : Nat
  recommendations_count : Nat
deriving DecidableEq

/-- The session payload returned by `generate_ai_intelligence`
(session id / timestamp / mode strings and free-text descriptions
omitted). -/
structure Intel where
  total_listings : Nat
  pricing : Pricing
  dealer_data : List Dealer
  ai_insights : List Insight
  intelligence_summary : Summary
deriving DecidableEq

/-- `generate_ai_intelligence`. The only partial operation is the
market-share division of rule 3, which in Python raises
`ZeroDivisionError` exactly when dealer records exist and
`total_listings == 0`; that case is the `error` branch. -/
def generate_ai_intelligence (raw : RawData) (cfg : Config) (week : Nat) :
    Except Unit Intel :=
  if raw.dealer_data ≠ [] ∧ raw.total_listings = 0 then .error () else
  let prices := pricesOf raw
  let cands := candidateInsights raw week
  let filtered :=
    cands.filter (fun i => decide (cfg.insight_confidence_threshold ≤ i.confidence))
  let final := filtered.take cfg.max_insights_per_report
  .ok
    { total_listings := raw.total_listings,
      pricing :=
        { average := avgPrice prices,
          median := medianOf prices,
          luxury_percentage := luxuryPct prices,
          sample_size := prices.length },
      dealer_data := (topDealers raw.dealer_data).take 5,
      ai_insights := final,
      intelligence_summary :=
        { insights_generated := final.length,
          confidence_average :=
            if final = [] then 0
            else (final.map (fun i => i.confidence)).sum / final.length,
          high_impact_insights :=
            (final.filter (fun i => i.impact == "high")).length,
          recommendations_count := final.length } }

/-- `match.replace('.', '').replace(',', '')`: strip the grouping
separators from a matched currency string (single-character removal is
a filter over the characters). -/
def stripSeparators (s : String) : String :=
  String.mk (s.data.filter (fun c => !(c == '.' || c == ',')))

/-- Digits-to-nat accumulator for `pyInt`. -/
def digitsToNat (cs : List Char) : Nat :=
  cs.foldl (fun n c => n * 10 + (c.toNat - 48)) 0

/-- Python `int(s)` on a separator-stripped match: succeeds on a
non-empty all-digit string, otherwise raises `ValueError` (`none`),
which the extraction loop swallows with `continue`. -/
def pyInt (s : String) : Option Nat :=
  if s.data ≠ [] ∧ s.data.all Char.isDigit then some (digitsToNat s.data)
  else none

/-- The per-match body of `extract_prices_intelligently`: parse after
separator stripping, keep only realistic car prices in
`[1000, 4000000]`. -/
def priceOfMatch (m : String) : Option Nat :=
  (pyInt (stripSeparators m)).bind
    (fun v => if 1000 ≤ v ∧ v ≤ 4000000 then some v else none)

/-- `extract_prices_intelligently`, taking the currency-pattern match
strings found in the document text: collect every parseable in-range
value, then `list(set(prices))` deduplicates. -/
def extract_prices_intelligently (ms : List String) : List Nat :=
  (ms.filterMap priceOfMatch).dedup

/-- One weekly run's external circumstances: whether overall
extraction fails (forcing the simulation fallback), what it would
otherwise produce, and whether the database save and the email send
fail. -/
structure RunEnv where
  extractFails : Bool
  extracted : RawData
  persistFails : Bool
  deliverFails : Bool

/-- The raw data the run analyses (`extract_marketplace_data` catches
any failure and substitutes `get_simulation_data`). -/
def effectiveRaw (env : RunEnv) : RawData :=
  if env.extractFails then get_simulation_data else env.extracted

/-- Outcome summary of `run_weekly_intelligence`. -/
structure RunResult where
  success : Bool
  reportRendered : Bool
  emailDelivered : Bool
deriving DecidableEq

/-- `run_weekly_intelligence`: validate, generate, save, render,
deliver. A validation failure returns early; an exception from
`generate_ai_intelligence` or from `save_intelligence` (which
re-raises after rollback) lands in the outer handler, which reports
failure with nothing rendered or delivered;
`send_intelligence_report` catches its own exceptions, so a delivery
failure leaves the run successful. -/
def run_weekly_intelligence (env : RunEnv) (cfg : Config) (week : Nat) :
    RunResult :=
  let raw := effectiveRaw env
  let v := validate_marketplace_data raw
  if v.is_valid = false then
    { success := false, reportRendered := false, emailDelivered := false }
  else
    match generate_ai_intelligence raw cfg week with
    | .error _ =>
      { success := false, reportRendered := false, emailDelivered := false }
    | .ok _ =>
      if env.persistFails then
        { success := false, reportRendered := false, emailDelivered := false }
      else
        { success := true, reportRendered := true,
          emailDelivered := !env.deliverFails }

section ValidatorLemmas

lemma priceCheck_errors (d : RawData) (r : ValidationResult) :
    (priceCheck d r).errors = r.errors := by
  unfold priceCheck
  split <;> [simp; skip]
  split <;> [simp; skip]
  split <;> [simp; skip]
  split <;> simp

lemma dealerCheck_errors (d : RawData) (r : ValidationResult) :
    (dealerCheck d r).errors = r.errors := by
  unfold dealerCheck
  split <;> simp

lemma priceCheck_valid (d : RawData) (r : ValidationResult) :
    (priceCheck d r).is_valid = r.is_valid := by
  unfold priceCheck
  split <;> [simp; skip]
  split <;> [simp; skip]
  split <;> [simp; skip]
  split <;> simp

lemma dealerCheck_valid (d : RawData) (r : ValidationResult) :
    (dealerCheck d r).is_valid = r.is_valid := by
  unfold dealerCheck
  split <;> simp

lemma finalCheck_valid_of_false {r : ValidationResult}
    (h : r.is_valid = false) : (finalCheck r).is_valid = false := by
  unfold finalCheck
  split <;> simp [h]

lemma finalCheck_errors_mem {e : String} {r : ValidationResult}
    (h : e ∈ r.errors) : e ∈ (finalCheck r).errors := by
  unfold finalCheck
  split <;> simp [h]

lemma valid_total_ne_zero (d : RawData)
    (hv : (validate_marketplace_data d).is_valid = true) :
    d.total_listings ≠ 0 := by
  intro h0
  have hlist : (listingsCheck d initialValidation).is_valid = false := by
    unfold listingsCheck
    rw [if_pos h0]
  have : (validate_marketplace_data d).is_valid = false := by
    unfold validate_marketplace_data
    exact finalCheck_valid_of_false
      (by rw [dealerCheck_valid, priceCheck_valid, hlist])
  rw [this] at hv
  exact Bool.false_ne_true hv

end ValidatorLemmas

section GeneratorLemmas

lemma generate_isOk (raw : RawData) (cfg : Config) (week : Nat)
    (h : raw.total_listings ≠ 0) :
    ∃ intel, generate_ai_intelligence raw cfg week = Except.ok intel := by
  unfold generate_ai_intelligence
  rw [if_neg (by intro hc; exact h hc.2)]
  exact ⟨_, rfl⟩

lemma generate_ok_elim {raw : RawData} {cfg : Config} {week : Nat}
    {intel : Intel}
    (h : generate_ai_intelligence raw cfg week = Except.ok intel) :
    intel.ai_insights =
      ((candidateInsights raw week).filter
        (fun i => decide (cfg.insight_confidence_threshold ≤ i.confidence))).take
        cfg.max_insights_per_report ∧
    intel.dealer_data = (topDealers raw.dealer_data).take 5 ∧
    intel.pricing.average = avgPrice (pricesOf raw) ∧
    intel.pricing.median = medianOf (pricesOf raw) ∧
    intel.pricing.luxury_percentage = luxuryPct (pricesOf raw) ∧
    intel.total_listings = raw.total_listings := by
  unfold generate_ai_intelligence at h
  split at h
  · exact absurd h (by simp)
  · simp only [Except.ok.injEq] at h
    subst h
    exact ⟨rfl, rfl, rfl, rfl, rfl, rfl⟩

lemma mem_ruleSeg {c : Prop} [Decidable c] {x i : Insight}
    (h : i ∈ ruleSeg c x) : i = x := by
  unfold ruleSeg at h
  split at h <;> simp_all

lemma mem_competitiveSeg {ds : List Dealer} {i : Insight}
    (h : i ∈ competitiveSeg ds) : ∃ leader, i = competitiveInsight leader := by
  unfold competitiveSeg at h
  split at h
  · simp at h
  · exact ⟨_, by simpa using h⟩

lemma mem_candidateInsights {raw : RawData} {week : Nat} {i : Insight}
    (h : i ∈ candidateInsights raw week) :
    i = marketTrendInsight ∨ i = pricingInsight ∨
      (∃ leader, i = competitiveInsight leader) ∨
      i = midRangeInsight ∨ i = predictionInsight := by
  unfold candidateInsights at h
  simp only [List.mem_append] at h
  rcases h with (((h | h) | h) | h) | h
  · exact Or.inl (mem_ruleSeg h)
  · exact Or.inr (Or.inl (mem_ruleSeg h))
  · exact Or.inr (Or.inr (Or.inl (mem_competitiveSeg h)))
  · exact Or.inr (Or.inr (Or.inr (Or.inl (mem_ruleSeg h))))
  · exact Or.inr (Or.inr (Or.inr (Or.inr (mem_ruleSeg h))))

lemma ruleSeg_kinds (c : Prop) [Decidable c] (x : Insight) :
    List.Sublist ((ruleSeg c x).map (fun i => i.kind)) [x.kind] := by
  unfold ruleSeg
  split <;> simp

lemma competitiveSeg_kinds (ds : List Dealer) :
    List.Sublist ((competitiveSeg ds).map (fun i => i.kind))
      [InsightKind.competitive_intelligence] := by
  unfold competitiveSeg
  split <;> simp [competitiveInsight]

lemma candidate_kinds_sublist (raw : RawData) (week : Nat) :
    List.Sublist ((candidateInsights raw week).map (fun i => i.kind))
      [InsightKind.market_trend, InsightKind.pricing_strategy,
       InsightKind.competitive_intelligence, InsightKind.market_opportunity,
       InsightKind.prediction] := by
  unfold candidateInsights
  simp only [List.map_append]
  exact ((((ruleSeg_kinds _ _).append (ruleSeg_kinds _ _)).append
    (competitiveSeg_kinds _)).append (ruleSeg_kinds _ _)).append
    (ruleSeg_kinds _ _)

lemma candidate_kinds_pairwise (raw : RawData) (week : Nat) :
    List.Pairwise (fun a b : Insight => kindRank a.kind < kindRank b.kind)
      (candidateInsights raw week) := by
  have h5 : List.Pairwise (fun a b : InsightKind => kindRank a < kindRank b)
      [InsightKind.market_trend, InsightKind.pricing_strategy,
       InsightKind.competitive_intelligence, InsightKind.market_opportunity,
       InsightKind.prediction] := by decide
  have hp := List.Pairwise.sublist (candidate_kinds_sublist raw week) h5
  rw [List.pairwise_map] at hp
  exact hp

lemma candidate_length_le (raw : RawData) (week : Nat) :
    (candidateInsights raw week).length ≤ 5 := by
  have := (candidate_kinds_sublist raw week).length_le
  simpa using this

end GeneratorLemmas

section SortingLemmas

lemma sortAsc_length (ps : List Nat) : (sortAsc ps).length = ps.length :=
  (List.perm_insertionSort (fun a b => a ≤ b) ps).length_eq

lemma orderedInsert_filter_count (x : Dealer) (s : List Dealer) (k : Nat) :
    (List.orderedInsert dealerGe x s).filter (fun d => d.listing_count == k) =
      if x.listing_count == k then
        x :: s.filter (fun d => d.listing_count == k)
      else s.filter (fun d => d.listing_count == k) := by
  induction s with
  | nil => by_cases hx : x.listing_count = k <;> simp [List.orderedInsert, hx]
  | cons y ys ih =>
    by_cases hxy : dealerGe x y
    · simp only [List.orderedInsert, if_pos hxy, List.filter_cons]
    · simp only [List.orderedInsert, if_neg hxy, List.filter_cons, ih]
      by_cases hx : x.listing_count = k
      · by_cases hy : y.listing_count = k
        · exact absurd (show dealerGe x y by
            unfold dealerGe; rw [hx, hy]) hxy
        · simp [hx, hy]
      · by_cases hy : y.listing_count = k <;> simp [hx, hy]

/-- Stability of the descending dealer sort: the dealers sharing any
given listing count appear in the sorted output exactly in their
original order. -/
lemma pySortDesc_filter_count (ds : List Dealer) (k : Nat) :
    (pySortDesc ds).filter (fun d => d.listing_count == k) =
      ds.filter (fun d => d.listing_count == k) := by
  induction ds with
  | nil => rfl
  | cons x xs ih =>
    show (List.orderedInsert dealerGe x
        (List.insertionSort dealerGe xs)).filter
        (fun d => d.listing_count == k) = _
    rw [orderedInsert_filter_count]
    show _ = List.filter (fun d => d.listing_count == k) (x :: xs)
    rw [List.filter_cons]
    exact if_congr Iff.rfl (congrArg _ ih) ih

lemma pySortDesc_perm (ds : List Dealer) : (pySortDesc ds).Perm ds :=
  List.perm_insertionSort dealerGe ds

lemma pySortDesc_sorted (ds : List Dealer) :
    List.Sorted dealerGe (pySortDesc ds) :=
  List.sorted_insertionSort dealerGe ds

end SortingLemmas

section Simulation

/-- The session payload `generate_ai_intelligence` computes from the
simulation dataset under the default configuration (for every week:
the seasonal rule-5 candidate, when generated, is removed by the 0.80
confidence filter). -/
def simIntel : Intel :=
  { total_listings := 29099,
    pricing :=
      { average := 2084183/26,
        median := 42868,
        luxury_percentage := 300/13,
        sample_size := 26 },
    dealer_data :=
      [⟨"autorulateleasing", 537⟩, ⟨"autodel", 310⟩,
       ⟨"parc-auto-dragoliv-sascut", 248⟩],
    ai_insights :=
      [competitiveInsight ⟨"autorulateleasing", 537⟩, midRangeInsight],
    intelligence_summary :=
      { insights_generated := 2,
        confidence_average := 89/100,
        high_impact_insights := 0,
        recommendations_count := 2 } }

lemma ruleSeg_pos {c : Prop} [Decidable c] (h : c) (x : Insight) :
    ruleSeg c x = [x] := by
  unfold ruleSeg; exact if_pos h

lemma ruleSeg_neg {c : Prop} [Decidable c] (h : ¬c) (x : Insight) :
    ruleSeg c x = [] := by
  unfold ruleSeg; exact if_neg h

lemma sim_sum : (pricesOf get_simulation_data).sum = 2084183 := by decide

lemma sim_len : (pricesOf get_simulation_data).length = 26 := by decide

lemma sim_avg : avgPrice (pricesOf get_simulation_data) = 2084183/26 := by
  unfold avgPrice
  rw [sim_sum, sim_len]
  norm_num

lemma sim_luxCount : luxuryCount (pricesOf get_simulation_data) = 6 := by
  decide

lemma sim_lux : luxuryPct (pricesOf get_simulation_data) = 300/13 := by
  unfold luxuryPct
  rw [sim_luxCount, sim_len]
  norm_num

lemma sim_midCount : midRangeCount (pricesOf get_simulation_data) = 3 := by
  decide

lemma sim_mid : midRangePct (pricesOf get_simulation_data) = 150/13 := by
  unfold midRangePct
  rw [sim_midCount, sim_len]
  norm_num

lemma sim_median : medianOf (pricesOf get_simulation_data) = 42868 := by
  decide

/-- The simulation leader record. -/
def simLeader : Dealer := ⟨"autorulateleasing", 537⟩

lemma sim_compSeg :
    competitiveSeg get_simulation_data.dealer_data =
      [competitiveInsight simLeader] := rfl

lemma sim_cands (week : Nat) :
    candidateInsights get_simulation_data week =
      competitiveInsight simLeader :: midRangeInsight ::
        ruleSeg (week % 4 = 0) predictionInsight := by
  unfold candidateInsights
  rw [ruleSeg_neg (by rw [sim_lux]; norm_num),
      ruleSeg_neg (by rw [sim_avg]; norm_num),
      ruleSeg_pos (by rw [sim_mid]; norm_num),
      sim_compSeg]
  simp

lemma sim_final (week : Nat) :
    (candidateInsights get_simulation_data week).filter
      (fun i => decide (defaultConfig.insight_confidence_threshold ≤ i.confidence)) =
      [competitiveInsight simLeader, midRangeInsight] := by
  have h1 : decide (defaultConfig.insight_confidence_threshold ≤
      (competitiveInsight simLeader).confidence) = true := by
    rw [decide_eq_true_eq]
    show (80:ℚ)/100 ≤ 95/100
    norm_num
  have h2 : decide (defaultConfig.insight_confidence_threshold ≤
      midRangeInsight.confidence) = true := by
    rw [decide_eq_true_eq]
    show (80:ℚ)/100 ≤ 83/100
    norm_num
  have h3 : decide (defaultConfig.insight_confidence_threshold ≤
      predictionInsight.confidence) = false := by
    rw [decide_eq_false_iff_not]
    show ¬ ((80:ℚ)/100 ≤ 76/100)
    norm_num
  rw [sim_cands]
  by_cases hw : week % 4 = 0
  · rw [ruleSeg_pos hw]
    simp only [List.filter_cons, List.filter_nil, h1, h2, h3]
    simp
  · rw [ruleSeg_neg hw]
    simp only [List.filter_cons, List.filter_nil, h1, h2]
    simp

lemma sim_generate (week : Nat) :
    generate_ai_intelligence get_simulation_data defaultConfig week =
      Except.ok simIntel := by
  unfold generate_ai_intelligence
  rw [if_neg (by simp [get_simulation_data])]
  refine congrArg Except.ok ?_
  have hfin := sim_final week
  simp only [hfin]
  have htake : List.take defaultConfig.max_insights_per_report
      [competitiveInsight simLeader, midRangeInsight] =
      [competitiveInsight simLeader, midRangeInsight] := rfl
  simp only [htake]
  unfold simIntel
  rw [Intel.mk.injEq, Pricing.mk.injEq, Summary.mk.injEq]
  refine ⟨rfl, ⟨sim_avg, sim_median, sim_lux, sim_len⟩, by decide, rfl,
    rfl, ?_, rfl, rfl⟩
  rw [if_neg (by simp)]
  show ((95:ℚ)/100 + (83/100 + 0)) / ((2:ℕ) : ℚ) = 89/100
  norm_num

end Simulation

section SimulationValidation

lemma sim_listingsCheck :
    listingsCheck get_simulation_data initialValidation = initialValidation := by
  unfold listingsCheck
  rw [if_neg (by decide), if_neg (by decide), if_neg (by decide)]

lemma sim_priceCheck :
    priceCheck get_simulation_data initialValidation = initialValidation := by
  have ha : avgPrice get_simulation_data.price_samples = 2084183/26 := sim_avg
  unfold priceCheck
  rw [if_neg (by decide), if_neg (by decide),
      if_neg (by rw [ha]; norm_num), if_neg (by rw [ha]; norm_num)]

lemma sim_dealerCheck :
    dealerCheck get_simulation_data initialValidation = initialValidation := by
  unfold dealerCheck
  rw [if_neg (by decide)]

lemma sim_validation :
    validate_marketplace_data get_simulation_data = initialValidation := by
  unfold validate_marketplace_data
  rw [sim_listingsCheck, sim_priceCheck, sim_dealerCheck]
  unfold finalCheck
  rw [if_neg (by decide)]

end SimulationValidation

/-- C4: whenever `total_listings == 0`, `validate_marketplace_data`
returns `is_valid == false`, its error list contains the "no ads"
error, and the quality score carries this check's 50-point deduction
(on top of whatever the price and dealer checks deduct). -/
theorem C4_zero_listings_invalid (d : RawData) (h : d.total_listings = 0) :
    (validate_marketplace_data d).is_valid = false ∧
    noAdsError ∈ (validate_marketplace_data d).errors ∧
    (validate_marketplace_data d).data_quality_score =
      100 - 50 - priceDeduction d - dealerDeduction d := by
  refine ⟨?_, ?_, ?_⟩
  · unfold validate_marketplace_data
    apply finalCheck_valid_of_false
    rw [dealerCheck_valid, priceCheck_valid]
    unfold listingsCheck
    rw [if_pos h]
  · unfold validate_marketplace_data
    apply finalCheck_errors_mem
    rw [dealerCheck_errors, priceCheck_errors]
    unfold listingsCheck
    rw [if_pos h]
    simp [initialValidation]
  · rw [validate_score]
    unfold listingsDeduction
    rw [if_pos h]

/-- Witness for C4 at the concrete batch `{0, [], []}`. -/
theorem C4_zero_listings_invalid_w :
    (validate_marketplace_data ⟨0, [], []⟩).is_valid = false ∧
    noAdsError ∈ (validate_marketplace_data ⟨0, [], []⟩).errors ∧
    (validate_marketplace_data ⟨0, [], []⟩).data_quality_score =
      100 - 50 - priceDeduction ⟨0, [], []⟩ - dealerDeduction ⟨0, [], []⟩ :=
  C4_zero_listings_invalid ⟨0, [], []⟩ rfl

/-- C8: the quality score equals 100 minus the sum of the three
per-check deductions, each deduction is non-negative (the score starts
at 100 and only decreases), and the final score is never negative. -/
theorem C8_quality_score_bounds (d : RawData) :
    (validate_marketplace_data d).data_quality_score =
      100 - (listingsDeduction d + priceDeduction d + dealerDeduction d) ∧
    0 ≤ listingsDeduction d ∧ 0 ≤ priceDeduction d ∧ 0 ≤ dealerDeduction d ∧
    0 ≤ (validate_marketplace_data d).data_quality_score ∧
    (validate_marketplace_data d).data_quality_score ≤ 100 := by
  have h := validate_score d
  have h1 := listingsDeduction_bounds d
  have h2 := priceDeduction_bounds d
  have h3 := dealerDeduction_bounds d
  exact ⟨by omega, h1.1, h2.1, h3.1, by omega, by omega⟩

/-- C9: the analysed price list is never empty (the `[40000]` fallback
precedes every division by the sample count); with a nonzero listing
total the generator always succeeds, while a zero total combined with
dealer records hits the market-share division by zero. -/
theorem C9_division_safety (raw : RawData) (cfg : Config) (week : Nat) :
    (pricesOf raw).length ≠ 0 ∧
    (raw.total_listings ≠ 0 →
      ∃ intel, generate_ai_intelligence raw cfg week = Except.ok intel) ∧
    (raw.total_listings = 0 → raw.dealer_data ≠ [] →
      generate_ai_intelligence raw cfg week = Except.error ()) := by
  refine ⟨?_, fun h => generate_isOk raw cfg week h, fun h0 hd => ?_⟩
  · unfold pricesOf
    split
    · simp
    · rename_i hne
      intro hl
      exact hne (List.length_eq_zero.mp hl)
  · unfold generate_ai_intelligence
    rw [if_pos ⟨hd, h0⟩]

/-- Witness for C9: success on the simulation data, division-by-zero
error on a zero-total batch with one dealer. -/
theorem C9_division_safety_w :
    (pricesOf get_simulation_data).length ≠ 0 ∧
    (∃ intel, generate_ai_intelligence get_simulation_data defaultConfig 1 =
      Except.ok intel) ∧
    generate_ai_intelligence ⟨0, [40000], [⟨"d", 5⟩]⟩ defaultConfig 1 =
      Except.error () :=
  ⟨(C9_division_safety get_simulation_data defaultConfig 1).1,
   (C9_division_safety get_simulation_data defaultConfig 1).2.1 (by decide),
   (C9_division_safety ⟨0, [40000], [⟨"d", 5⟩]⟩ defaultConfig 1).2.2 rfl
     (by decide)⟩

/-- C6: the reported median is the element at index `len // 2` of the
ascending sort of the samples (the lower-middle element on even
lengths); the sort is a sorted permutation of the input. -/
theorem C6_median_lower_middle (ps : List Nat) (h : ps ≠ []) :
    List.Sorted (fun a b => a ≤ b) (sortAsc ps) ∧
    (sortAsc ps).Perm ps ∧
    medianOf ps = (sortAsc ps).get
      ⟨ps.length / 2, by
        rw [sortAsc_length]
        exact Nat.div_lt_self (List.length_pos.mpr h) one_lt_two⟩ := by
  refine ⟨List.sorted_insertionSort _ ps, List.perm_insertionSort _ ps, ?_⟩
  unfold medianOf
  exact List.getD_eq_get _ 0 _

/-- Witness for C6 on `[1, 2, 3, 4]`: index 2 of the sort, value 3. -/
theorem C6_median_lower_middle_w : medianOf [1, 2, 3, 4] = 3 :=
  ((C6_median_lower_middle [1, 2, 3, 4] (by decide)).2.2).trans (by decide)

/-- C7: the extracted price list is duplicate-free, and every value
lies in `[1000, 4000000]` and is the integer parsed from one of the
matched currency strings after separator stripping. -/
theorem C7_extract_prices (ms : List String) :
    (extract_prices_intelligently ms).Nodup ∧
    ∀ v ∈ extract_prices_intelligently ms,
      1000 ≤ v ∧ v ≤ 4000000 ∧
      ∃ m ∈ ms, pyInt (stripSeparators m) = some v := by
  refine ⟨List.nodup_dedup _, fun v hv => ?_⟩
  unfold extract_prices_intelligently at hv
  rw [List.mem_dedup, List.mem_filterMap] at hv
  obtain ⟨m, hm, hpm⟩ := hv
  unfold priceOfMatch at hpm
  cases hp : pyInt (stripSeparators m) with
  | none => rw [hp] at hpm; simp at hpm
  | some w =>
    rw [hp] at hpm
    rw [Option.some_bind] at hpm
    split at hpm
    · rename_i hrange
      cases hpm
      exact ⟨hrange.1, hrange.2, m, hm, hp⟩
    · simp at hpm

/-- Witness for C7 on a concrete match list containing a duplicate, a
non-numeric string and an out-of-range value. -/
theorem C7_extract_prices_w :
    12500 ∈ extract_prices_intelligently ["12.500", "abc", "500", "12.500"] ∧
    (1000 ≤ 12500 ∧ 12500 ≤ 4000000 ∧
      ∃ m ∈ ["12.500", "abc", "500", "12.500"],
        pyInt (stripSeparators m) = some 12500) :=
  ⟨by decide,
   (C7_extract_prices ["12.500", "abc", "500", "12.500"]).2 12500 (by decide)⟩

/-- C2: every reported insight meets the configured confidence
threshold, the report never exceeds the configured cap, and the kept
insights form a subsequence of the rule-order candidate list with
kinds in strict rule order — never re-sorted by confidence or
impact. -/
theorem C2_insight_invariants (raw : RawData) (cfg : Config) (week : Nat)
    (intel : Intel)
    (h : generate_ai_intelligence raw cfg week = Except.ok intel) :
    (∀ i ∈ intel.ai_insights,
      cfg.insight_confidence_threshold ≤ i.confidence) ∧
    intel.ai_insights.length ≤ cfg.max_insights_per_report ∧
    List.Sublist intel.ai_insights (candidateInsights raw week) ∧
    List.Pairwise (fun a b : Insight => kindRank a.kind < kindRank b.kind)
      intel.ai_insights := by
  obtain ⟨hins, -⟩ := generate_ok_elim h
  rw [hins]
  have hsub : List.Sublist
      (((candidateInsights raw week).filter
        (fun i => decide (cfg.insight_confidence_threshold ≤ i.confidence))).take
        cfg.max_insights_per_report)
      (candidateInsights raw week) :=
    (List.take_sublist _ _).trans (List.filter_sublist _)
  refine ⟨?_, List.length_take_le _ _, hsub, ?_⟩
  · intro i hi
    have hmem := List.take_subset _ _ hi
    exact of_decide_eq_true (List.mem_filter.mp hmem).2
  · exact List.Pairwise.sublist hsub (candidate_kinds_pairwise raw week)

/-- Witness for C2 on the simulation run. -/
theorem C2_insight_invariants_w :
    (∀ i ∈ simIntel.ai_insights,
      defaultConfig.insight_confidence_threshold ≤ i.confidence) ∧
    simIntel.ai_insights.length ≤ defaultConfig.max_insights_per_report ∧
    List.Sublist simIntel.ai_insights (candidateInsights get_simulation_data 1) ∧
    List.Pairwise (fun a b : Insight => kindRank a.kind < kindRank b.kind)
      simIntel.ai_insights :=
  C2_insight_invariants get_simulation_data defaultConfig 1 simIntel
    (sim_generate 1)

/-- C10: at most five candidate insights, pairwise distinct kinds,
every confidence drawn from the five fixed values, the final list has
at most five entries, and the default cap of 12 never truncates (under
it the final list is exactly the confidence-filtered candidates). -/
theorem C10_candidate_census (raw : RawData) (cfg : Config) (week : Nat)
    (intel : Intel)
    (h : generate_ai_intelligence raw cfg week = Except.ok intel) :
    (candidateInsights raw week).length ≤ 5 ∧
    List.Pairwise (fun a b : Insight => a.kind ≠ b.kind)
      (candidateInsights raw week) ∧
    (∀ i ∈ candidateInsights raw week,
      i.confidence ∈ [(92:ℚ)/100, 89/100, 95/100, 83/100, 76/100]) ∧
    intel.ai_insights.length ≤ 5 ∧
    (cfg.max_insights_per_report = 12 →
      intel.ai_insights =
        (candidateInsights raw week).filter
          (fun i => decide (cfg.insight_confidence_threshold ≤ i.confidence))) := by
  obtain ⟨hins, -⟩ := generate_ok_elim h
  have hsub : List.Sublist
      (((candidateInsights raw week).filter
        (fun i => decide (cfg.insight_confidence_threshold ≤ i.confidence))).take
        cfg.max_insights_per_report)
      (candidateInsights raw week) :=
    (List.take_sublist _ _).trans (List.filter_sublist _)
  refine ⟨candidate_length_le raw week, ?_, ?_, ?_, ?_⟩
  · refine (candidate_kinds_pairwise raw week).imp ?_
    intro a b hlt heq
    rw [heq] at hlt
    exact lt_irrefl _ hlt
  · intro i hi
    rcases mem_candidateInsights hi with h1 | h1 | ⟨l, h1⟩ | h1 | h1 <;>
      subst h1 <;>
      simp [marketTrendInsight, pricingInsight, competitiveInsight,
        midRangeInsight, predictionInsight]
  · rw [hins]
    exact hsub.length_le.trans (candidate_length_le raw week)
  · intro h12
    rw [hins, h12]
    apply List.take_of_length_le
    exact ((List.filter_sublist _).length_le.trans
      (candidate_length_le raw week)).trans (by norm_num)

/-- Witness for C10 on the simulation run. -/
theorem C10_candidate_census_w :
    (candidateInsights get_simulation_data 1).length ≤ 5 ∧
    List.Pairwise (fun a b : Insight => a.kind ≠ b.kind)
      (candidateInsights get_simulation_data 1) ∧
    (∀ i ∈ candidateInsights get_simulation_data 1,
      i.confidence ∈ [(92:ℚ)/100, 89/100, 95/100, 83/100, 76/100]) ∧
    simIntel.ai_insights.length ≤ 5 ∧
    (defaultConfig.max_insights_per_report = 12 →
      simIntel.ai_insights =
        (candidateInsights get_simulation_data 1).filter
          (fun i => decide (defaultConfig.insight_confidence_threshold ≤
            i.confidence))) :=
  C10_candidate_census get_simulation_data defaultConfig 1 simIntel
    (sim_generate 1)

/-- C3 (amended): the session payload's `dealer_data` is the stable
descending-by-count sort of the extracted dealer records sliced to the
top 3 (not 5): the source slices `sorted(...)[:3]` and the later
`[:5]` is a no-op; the sort is a permutation, is sorted descending,
and is stable (dealers of equal count keep their original order). -/
theorem C3_top_dealers_amended (raw : RawData) (cfg : Config) (week : Nat)
    (intel : Intel)
    (h : generate_ai_intelligence raw cfg week = Except.ok intel) :
    intel.dealer_data = (pySortDesc raw.dealer_data).take 3 ∧
    (pySortDesc raw.dealer_data).Perm raw.dealer_data ∧
    List.Sorted dealerGe (pySortDesc raw.dealer_data) ∧
    ∀ k, (pySortDesc raw.dealer_data).filter (fun d => d.listing_count == k) =
      raw.dealer_data.filter (fun d => d.listing_count == k) := by
  obtain ⟨-, hd, -⟩ := generate_ok_elim h
  refine ⟨?_, pySortDesc_perm _, pySortDesc_sorted _,
    fun k => pySortDesc_filter_count _ k⟩
  rw [hd]
  unfold topDealers
  rw [List.take_take]
  norm_num

/-- Witness for C3 on the simulation run, with the stability equation
instantiated at count 537. -/
theorem C3_top_dealers_amended_w :
    simIntel.dealer_data =
      (pySortDesc get_simulation_data.dealer_data).take 3 ∧
    (pySortDesc get_simulation_data.dealer_data).Perm
      get_simulation_data.dealer_data ∧
    (pySortDesc get_simulation_data.dealer_data).filter
      (fun d => d.listing_count == 537) =
      get_simulation_data.dealer_data.filter
        (fun d => d.listing_count == 537) :=
  ⟨(C3_top_dealers_amended get_simulation_data defaultConfig 1 simIntel
      (sim_generate 1)).1,
   (C3_top_dealers_amended get_simulation_data defaultConfig 1 simIntel
      (sim_generate 1)).2.1,
   (C3_top_dealers_amended get_simulation_data defaultConfig 1 simIntel
      (sim_generate 1)).2.2.2 537⟩

/-- A batch with four dealers, used to separate "top 3" from "top
5". -/
def fourDealerData : RawData :=
  { total_listings := 29099,
    price_samples := get_simulation_data.price_samples,
    dealer_data := [⟨"a", 40⟩, ⟨"b", 30⟩, ⟨"c", 20⟩, ⟨"d", 10⟩] }

/-- C3 counterexample: with four extracted dealers the payload keeps
only three, so it differs from the top-5 slice the claim asserts. -/
theorem C3_top5_counterexample :
    ∃ intel,
      generate_ai_intelligence fourDealerData defaultConfig 1 =
        Except.ok intel ∧
      intel.dealer_data ≠ (pySortDesc fourDealerData.dealer_data).take 5 := by
  obtain ⟨intel, hg⟩ := generate_isOk fourDealerData defaultConfig 1 (by decide)
  refine ⟨intel, hg, ?_⟩
  obtain ⟨-, hd, -⟩ := generate_ok_elim hg
  rw [hd]
  decide

/-- C1 counterexample: on the fixed simulation dataset the average
price is exactly 2084183/26 ≈ 80160.88 EUR, which differs from the
claimed approx 85635 EUR by more than 5000, so the claimed average is
wrong under any reasonable reading of "approximately". -/
theorem C1_average_counterexample :
    avgPrice (pricesOf get_simulation_data) = 2084183/26 ∧
    5000 < |avgPrice (pricesOf get_simulation_data) - 85635| := by
  refine ⟨sim_avg, ?_⟩
  rw [sim_avg]
  have h : (2084183:ℚ)/26 - 85635 = -(142327/26) := by norm_num
  rw [h, abs_neg, abs_of_nonneg (by norm_num : (0:ℚ) ≤ 142327/26)]
  norm_num

/-- C1 (amended): on the fixed simulation dataset, for every week,
`generate_ai_intelligence` deterministically reports luxury share
300/13 ≈ 23.08 percent, average price 2084183/26 ≈ 80161 EUR (not
85635), and a competitive-intelligence insight naming
autorulateleasing whose market share 53700/29099 ≈ 1.85 percent. -/
theorem C1_simulation_aggregates (week : Nat) :
    ∃ intel,
      generate_ai_intelligence get_simulation_data defaultConfig week =
        Except.ok intel ∧
      intel.pricing.luxury_percentage = 300/13 ∧
      |intel.pricing.luxury_percentage - 2308/100| < 1/100 ∧
      intel.pricing.average = 2084183/26 ∧
      |intel.pricing.average - 80161| < 1 ∧
      (∃ i ∈ intel.ai_insights,
        i.kind = InsightKind.competitive_intelligence ∧
        i.title = "Autorulateleasing Market Leadership" ∧
        i.confidence = 95/100) ∧
      marketShare simLeader get_simulation_data.total_listings =
        53700/29099 ∧
      |marketShare simLeader get_simulation_data.total_listings - 185/100| <
        1/100 := by
  refine ⟨simIntel, sim_generate week, rfl, ?_, rfl, ?_, ?_, ?_, ?_⟩
  · show |(300:ℚ)/13 - 2308/100| < 1/100
    have h : (300:ℚ)/13 - 2308/100 = -(1/325) := by norm_num
    rw [h, abs_neg, abs_of_nonneg (by norm_num : (0:ℚ) ≤ 1/325)]
    norm_num
  · show |(2084183:ℚ)/26 - 80161| < 1
    have h : (2084183:ℚ)/26 - 80161 = -(3/26) := by norm_num
    rw [h, abs_neg, abs_of_nonneg (by norm_num : (0:ℚ) ≤ 3/26)]
    norm_num
  · refine ⟨competitiveInsight simLeader, List.mem_cons_self _ _, rfl, ?_, rfl⟩
    decide
  · unfold marketShare simLeader
    norm_num [get_simulation_data]
  · have hs : marketShare simLeader get_simulation_data.total_listings =
        53700/29099 := by
      unfold marketShare simLeader
      norm_num [get_simulation_data]
    rw [hs]
    have h : (53700:ℚ)/29099 - 185/100 = -(13315/2909900) := by norm_num
    rw [h, abs_neg, abs_of_nonneg (by norm_num : (0:ℚ) ≤ 13315/2909900)]
    norm_num

/-- C5 (amended): once validation has passed, a persistence failure
aborts the rest of the run — the report is neither rendered nor
delivered and the run result reports failure — whereas a delivery
failure degrades gracefully and the run still reports success. -/
theorem C5_persistence_hard_stop (env : RunEnv) (cfg : Config) (week : Nat)
    (hv : (validate_marketplace_data (effectiveRaw env)).is_valid = true) :
    (env.persistFails = true →
      run_weekly_intelligence env cfg week =
        { success := false, reportRendered := false,
          emailDelivered := false }) ∧
    (env.persistFails = false →
      run_weekly_intelligence env cfg week =
        { success := true, reportRendered := true,
          emailDelivered := !env.deliverFails }) := by
  obtain ⟨intel, hg⟩ :=
    generate_isOk (effectiveRaw env) cfg week (valid_total_ne_zero _ hv)
  constructor <;> intro hp <;>
    simp only [run_weekly_intelligence, hv, hg, hp] <;> simp

/-- Witness for C5: valid simulation data, the save succeeds but the
email send fails; the run still succeeds with no delivery. -/
theorem C5_persistence_hard_stop_w :
    run_weekly_intelligence ⟨false, get_simulation_data, false, true⟩
        defaultConfig 1 =
      { success := true, reportRendered := true, emailDelivered := !true } :=
  (C5_persistence_hard_stop ⟨false, get_simulation_data, false, true⟩
      defaultConfig 1
      (by rw [show effectiveRaw ⟨false, get_simulation_data, false, true⟩ =
            get_simulation_data from rfl, sim_validation]; rfl)).2 rfl

/-- C5 counterexample: valid simulation data with a failing database
save — the run reports failure and nothing is rendered or delivered,
contradicting the claimed graceful degradation of the persistence
stage. -/
theorem C5_graceful_persist_counterexample :
    run_weekly_intelligence ⟨false, get_simulation_data, true, false⟩
        defaultConfig 1 =
      { success := false, reportRendered := false, emailDelivered := false } := by
  have hv : (validate_marketplace_data
      (effectiveRaw ⟨false, get_simulation_data, true, false⟩)).is_valid =
      true := by
    rw [show effectiveRaw ⟨false, get_simulation_data, true, false⟩ =
      get_simulation_data from rfl, sim_validation]
    rfl
  obtain ⟨intel, hg⟩ :=
    generate_isOk (effectiveRaw ⟨false, get_simulation_data, true, false⟩)
      defaultConfig 1 (by decide)
  simp only [run_weekly_intelligence, hv, hg]
  simp

end Agent
